import Mathlib

/-!
Shallow embedding of `src/golem/docker/hypervisor/docker_machine.py`
(`DockerMachineHypervisor`).

Conventions of the embedding:

* Python strings are Lean `String`s; every Python string operation used by the
  source (`split`, `split(sep, 1)`, `strip`, `splitlines`, `lower`,
  `replace`, `join`, slicing) is re-implemented structurally over `List Char`
  so that everything evaluates inside the kernel.
* External effects (the driver command-line tool, the base-class helpers, the
  container-runtime client) are supplied by an environment record `Ext`
  holding oracles; each invocation of the driver tool consumes one oracle
  index and is recorded in an event trace.
* `os.environ` is an association list, `self._config_dir` an `Option String`,
  both carried in the state `St` that every method threads.
* Python exceptions are the `PyErr` type; a method returns
  `Except PyErr result × St` (state mutations performed before a raise
  persist, as in Python).
* Log calls are recorded as trace events carrying the format string; runtime
  values interpolated into a log message are kept only where a claim depends
  on them (the `create` failure message).
-/

namespace DockerMachine

/-! ## Python string model -/

/-- Python `s.split(c)` for a one-character separator, over char lists:
splits at every occurrence, keeping empty pieces. -/
def splitCh (c : Char) : List Char → List (List Char)
  | [] => [[]]
  | a :: as =>
    let r := splitCh c as
    if a = c then [] :: r
    else
      match r with
      | [] => [[a]]
      | g :: gs => (a :: g) :: gs

/-- Python `s.split(c, 1)`: split at the first occurrence only.  Returns the
part before the separator and, when the separator occurs, the rest verbatim. -/
def splitOnceCh (c : Char) : List Char → List Char × Option (List Char)
  | [] => ([], none)
  | a :: as =>
    if a = c then ([], some as)
    else
      let (x, r) := splitOnceCh c as
      (a :: x, r)

/-- Python `c.join(parts)` for a one-character separator. -/
def joinCh (c : Char) : List (List Char) → List Char
  | [] => []
  | [x] => x
  | x :: xs => x ++ c :: joinCh c xs

/-- Python `s.strip()`: drop leading and trailing whitespace. -/
def stripCh (l : List Char) : List Char :=
  ((l.dropWhile Char.isWhitespace).reverse.dropWhile Char.isWhitespace).reverse

/-- Python `s.split()` with no separator: maximal runs of non-whitespace
characters, no empty pieces. -/
def wordsAux : List Char → List Char → List (List Char)
  | [], acc => if acc = [] then [] else [acc.reverse]
  | a :: as, acc =>
    if a.isWhitespace then
      if acc = [] then wordsAux as [] else acc.reverse :: wordsAux as []
    else wordsAux as (a :: acc)

def pyWords (l : List Char) : List (List Char) := wordsAux l []

/-- Python `s.split(c)` lifted to `String`s. -/
def pySplitCh (c : Char) (s : String) : List String :=
  (splitCh c s.toList).map String.mk

/-- Python `s.splitlines()` restricted to the LF newline convention used by
the tool output this module parses: like splitting on a newline, except that
the empty string yields no lines and a trailing newline yields no trailing
empty line. -/
def pySplitlines (s : String) : List String :=
  if s.toList = [] then []
  else
    let ps := splitCh '\n' s.toList
    (if ps.getLast? = some [] then ps.dropLast else ps).map String.mk

/-- Python `s.lower()` (ASCII, which is all the source compares). -/
def pyLower (s : String) : String := String.mk (s.toList.map Char.toLower)

/-- Python `s.replace(old, new)` for removing every occurrence of one
character (the source only uses `val.replace(chr(34), empty)`). -/
def pyRemoveCh (c : Char) (s : String) : String :=
  String.mk (s.toList.filter (fun a => a ≠ c))

/-! ## External outcomes, errors, events, state -/

/-- Outcome of one driver-tool invocation, chosen by the environment. -/
inductive CmdOutcome where
  | ok (output : String)
  | cpe (stdout : Option String)
  | timeout
deriving Repr, DecidableEq

/-- Outcome of the base-class `remove` helper: a success flag, or a
non-zero-exit failure (which `_recover` catches). -/
inductive RemoveOutcome where
  | ok (b : Bool)
  | cpe (stdout : Option String)
deriving Repr, DecidableEq

/-- One invocation of `self.command(...)`: subcommand, machine name,
extra arguments and the optional timeout in seconds. -/
structure CmdCall where
  cmd : String
  machine : Option String
  args : List String
  timeoutSec : Option Nat
deriving Repr, DecidableEq

/-- Python exceptions that the source raises, catches or propagates. -/
inductive PyErr where
  | calledProcessError (stdout : Option String)
  | timeoutExpired
  | exception (msg : String)
  | valueError
  | indexError
  | keyError
  | assertionError
deriving Repr, DecidableEq

/-- Observable events, recorded in program order. -/
inductive Event where
  | cmd (c : CmdCall)
  | createCall (name : String) (params : List (String × String))
  | removeCall (name : String)
  | vmRunningCall
  | restoreVmCall
  | logWarn (msg : String)
  | logError (msg : String)
  | logInfo (msg : String)
  | logDebug (msg : String)
deriving Repr, DecidableEq

/-- Mutable state threaded through the methods: oracle counters, the event
trace, `os.environ` and `self._config_dir`. -/
structure St where
  kc : Nat
  kr : Nat
  kv : Nat
  trace : List Event
  env : List (String × String)
  configDir : Option String
deriving Repr, DecidableEq

/-- The external world: oracles for the driver tool, the base-class helpers
and the container-runtime client, plus the constructor-time parameters. -/
structure ContainerConfig where
  /-- Models `config` at `NetworkSettings.Ports`: maps a port spec such as
  `8080/tcp` to the list of host bindings; each binding is its `HostPort`
  with the `int(...)` conversion already folded in. -/
  ports : List (String × List Int)

structure Ext where
  co : Nat → CmdCall → CmdOutcome
  ro : Nat → RemoveOutcome
  running : Nat → Bool
  vmName : String
  driverName : String
  getConfig : List (String × String)
  ipOk : String → Bool
  inspect : String → ContainerConfig

def push (s : St) (e : Event) : St := { s with trace := s.trace ++ [e] }

/-- `self.command(...)`: consumes one command-oracle index, records the call,
and returns the output or raises the oracle-chosen error. -/
def command (E : Ext) (c : CmdCall) (s : St) : Except PyErr String × St :=
  let s' := { s with kc := s.kc + 1, trace := s.trace ++ [Event.cmd c] }
  match E.co s.kc c with
  | .ok out => (.ok out, s')
  | .cpe o => (.error (.calledProcessError o), s')
  | .timeout => (.error .timeoutExpired, s')

/-- A real `subprocess` call raises `TimeoutExpired` only when it was given a
timeout; an environment is well formed when untimed invocations never
produce the timeout outcome. -/
def NoSpuriousTimeout (E : Ext) : Prop :=
  ∀ n c, c.timeoutSec = none → E.co n c ≠ CmdOutcome.timeout

/-! ## create -/

def DRIVER_PARAM_NAME : String := "--driver"

/-- Modelled from the spec: the fixed constraint key translation table
(`CONSTRAINT_KEYS`), imported by the source from the config module, which is
not under src/.  Spec section 6: a fixed mapping from logical constraint
names (CPU, memory) to the parameter keys of the configuration function. -/
def CONSTRAINT_KEYS : List (String × String) :=
  [("mem", "memory_size"), ("cpu", "cpu_count")]

/-- Python `params.pop(key, None)` on a dict modelled as an association
list: the looked-up value (or `none`) and the dict without the key. -/
def pyPop (params : List (String × String)) (key : String) :
    Option String × List (String × String) :=
  match params.lookup key with
  | none => (none, params)
  | some v => (some v, params.eraseP (fun p => p.1 = key))

/-- The dict comprehension in `create`: pop every constraint key from
`params`, collecting the popped values and the remaining entries. -/
def popConstraints :
    List (String × String) → List (String × String) →
      List (String × Option String) × List (String × String)
  | [], params => ([], params)
  | (k, v) :: rest, params =>
    let (x, params') := pyPop params v
    let (cs, params'') := popConstraints rest params'
    ((k, x) :: cs, params'')

/-- `_parse_create_params` of this abstract class: ignores all parameters and
returns the driver selector flag and driver name. -/
def parse_create_params (E : Ext) (_constraints : List (String × Option String))
    (_params : List (String × String)) : List String :=
  [DRIVER_PARAM_NAME, E.driverName]

/-- The command invocation issued by `create` for machine name `n`. -/
def createCmd (E : Ext) (n : String) : CmdCall :=
  { cmd := "create", machine := some n,
    args := [DRIVER_PARAM_NAME, E.driverName], timeoutSec := none }

/-- The error log emitted by `create` on a non-zero exit, with the decoded
stdout interpolated (the doubled quote after the name is in the source). -/
def createFailMsg (E : Ext) (n out : String) : String :=
  E.driverName ++ ": error creating VM \"" ++ n ++ "\"\" stdout=\"" ++ out ++ "\""

/-- Python truthiness in `vm_name = vm_name or self._vm_name`: a missing or
empty name falls back to the managed name. -/
def resolveName (E : Ext) (name : Option String) : String :=
  match name with
  | some nm => if nm = "" then E.vmName else nm
  | none => E.vmName

/-- `DockerMachineHypervisor.create`: resolve the name with Python
truthiness (`vm_name or self._vm_name`), split off the constraint keys, run
the `create` subcommand; return `True` on success, and on a non-zero exit
log the decoded stdout (empty string when unavailable) and return `False`. -/
def create (E : Ext) (name : Option String) (params : List (String × String))
    (s : St) : Except PyErr Bool × St :=
  let n := resolveName E name
  let cr := popConstraints CONSTRAINT_KEYS params
  let _cargs := parse_create_params E cr.1 cr.2
  let s := push (push s (Event.createCall n params))
    (Event.logInfo (E.driverName ++ ": creating VM \"" ++ n ++ "\""))
  match command E (createCmd E n) s with
  | (.ok _, s') => (.ok true, s')
  | (.error (.calledProcessError stdout), s') =>
    (.ok false, push s' (Event.logError (createFailMsg E n (stdout.getD ""))))
  | (.error e, s') => (.error e, s')

/-! ## vms -/

def listCmd : CmdCall :=
  { cmd := "list", machine := none, args := [], timeoutSec := none }

/-- `l.strip().split()[0]` of one output line: the first whitespace-delimited
token; `IndexError` when the line has none. -/
def firstToken (l : String) : Except PyErr String :=
  match pyWords (stripCh l.toList) with
  | [] => .error .indexError
  | t :: _ => .ok (String.mk t)

def firstTokens : List String → Except PyErr (List String)
  | [] => .ok []
  | l :: ls =>
    match firstToken l with
    | .error e => .error e
    | .ok t =>
      match firstTokens ls with
      | .error e => .error e
      | .ok ts => .ok (t :: ts)

/-- The data lines of a `list` output: `output.split(chr(10))[1:-1]`, i.e.
drop the first line (header) and the last line (trailing blank). -/
def dataLines (output : String) : List String :=
  ((pySplitCh '\n' output).drop 1).dropLast

/-- The `vms` property: run `list`; on a non-zero exit log a warning and
return the empty list; on success parse the data lines, taking the first
token of each. -/
def vms (E : Ext) (s : St) : Except PyErr (List String) × St :=
  match command E listCmd s with
  | (.error (.calledProcessError _), s') =>
    (.ok [], push s' (Event.logWarn "Failed to list VMs"))
  | (.error e, s') => (.error e, s')
  | (.ok output, s') =>
    if output = "" then (.ok [], s')
    else
      match firstTokens (dataLines output) with
      | .ok names => (.ok names, s')
      | .error e => (.error e, s')

/-! ## get_port_mapping -/

def ipCmd (E : Ext) : CmdCall :=
  { cmd := "ip", machine := some E.vmName, args := [], timeoutSec := none }

/-- The loop guard of `get_port_mapping`: the line is non-empty, starts with
a numeric character (`str.isnumeric`, modelled for ASCII as a digit) and
`ipaddress.ip_address` accepts it (modelled by the external oracle `ipOk`). -/
def ipLineOk (E : Ext) (l : String) : Bool :=
  match l.toList with
  | [] => false
  | c :: _ => c.isDigit && E.ipOk l

/-- The `for`/`break` scan over the `ip` output lines. -/
def findIP (E : Ext) : List String → Option String
  | [] => none
  | l :: ls => if ipLineOk E l then some l else findIP E ls

/-- `DockerMachineHypervisor.get_port_mapping`: look up the host port bound
to `port/tcp` in the inspected container config, query the VM IP, scan for
the first acceptable IP line; `AssertionError` when no line qualifies. -/
def get_port_mapping (E : Ext) (containerId : String) (port : Int) (s : St) :
    Except PyErr (String × Int) × St :=
  match (E.inspect containerId).ports.lookup (toString port ++ "/tcp") with
  | none => (.error .keyError, s)
  | some [] => (.error .indexError, s)
  | some (hp :: _) =>
    match command E (ipCmd E) s with
    | (.error e, s1) => (.error e, s1)
    | (.ok raw, s1) =>
      match findIP E (pySplitlines raw) with
      | some ipLine => (.ok (ipLine, hp), s1)
      | none => (.error .assertionError, s1)

/-! ## Environment synchronization -/

/-- POSIX `os.path.sep`. -/
def osPathSep : Char := '/'

/-- `os.environ[var] = val` on the association-list model: overwrite the
existing binding in place or append a new one. -/
def envSet : List (String × String) → String → String → List (String × String)
  | [], var, val => [(var, val)]
  | (k, v) :: rest, var, val =>
    if k = var then (k, val) :: rest else (k, v) :: envSet rest var val

/-- One iteration of the `_set_env_from_output` loop: skip blank lines,
split off the directive word (`ValueError` when the line has no space),
skip non-`set` directives, split `VAR=VALUE` at the first equals sign
(`ValueError` when there is none), store the value verbatim in the process
environment, and for `DOCKER_CERT_PATH` derive the certificate directory by
removing the double quotes and dropping the last path segment. -/
def procEnvLine (line : String) (s : St) : Except PyErr Unit × St :=
  if line = "" then (.ok (), s)
  else
    match splitOnceCh ' ' line.toList with
    | (_, none) => (.error .valueError, s)
    | (c, some ps) =>
      if pyLower (String.mk c) ≠ "set" then (.ok (), s)
      else
        match splitOnceCh '=' ps with
        | (_, none) => (.error .valueError, s)
        | (var, some val) =>
          let varS := String.mk var
          let valS := String.mk val
          let s := { s with env := envSet s.env varS valS }
          if varS = "DOCKER_CERT_PATH" then
            let split := splitCh osPathSep (pyRemoveCh '"' valS).toList
            let dir := String.mk (joinCh osPathSep split.dropLast)
            (.ok (), { s with configDir := some dir })
          else (.ok (), s)

def procEnvLines : List String → St → Except PyErr Unit × St
  | [], s => (.ok (), s)
  | l :: ls, s =>
    match procEnvLine l s with
    | (.ok _, s') => procEnvLines ls s'
    | (.error e, s') => (.error e, s')

/-- `_set_env_from_output`: process each line of the export output. -/
def set_env_from_output (output : String) (s : St) : Except PyErr Unit × St :=
  procEnvLines (pySplitCh '\n' output) s

/-- The `env` invocation issued by `_set_env`. -/
def envCmd (E : Ext) : CmdCall :=
  { cmd := "env", machine := some E.vmName,
    args := ["--shell", "cmd"], timeoutSec := none }

/-- The tail of `_set_env` after a successful `env` invocation: non-empty
output is parsed and an info line logged, empty output logs a warning. -/
def set_env_success (output : String) (s : St) : Except PyErr Unit × St :=
  if output = "" then
    (.ok (), push s (Event.logWarn "DockerMachine: env update failed"))
  else
    match set_env_from_output output s with
    | (.ok _, s') => (.ok (), push s' (Event.logInfo "DockerMachine: env updated"))
    | (.error e, s') => (.error e, s')

/-- The remediation guidance logged before the terminal re-raise (quotes
around Hyper-V and the backtick-quoted tool invocations elided). -/
def typicalSolutionMsg : String :=
  "It seems there is a  problem with your Docker installation.\n" ++
  "Ensure that you try the following before reporting an issue:\n\n" ++
  " 1. The virtualization of Intel VT-x/EPT or AMD-V/RVI is enabled in BIOS\n" ++
  "    or virtual machine settings.\n" ++
  " 2. The windows feature Hyper-V is enabled\n" ++
  " 3. docker-machine is in your path docker-machine --version in ps or cmd\n" ++
  " 4. docker-machine ls has no errors docker-machine  ls in ps or cmd"

def envFailWarn : String := "Failed to update env for VM"

def envFailDebug : String := "DockerMachine_output"

/-- `_set_env(retried=True)`: the body of `_set_env` with the
`if not retried` branch statically skipped — a failed retried attempt logs
the remediation guidance and re-raises the original error, and never
re-enters the recovery cascade. -/
def set_env_retried (E : Ext) (s : St) : Except PyErr Unit × St :=
  match command E (envCmd E) s with
  | (.ok output, s') => set_env_success output s'
  | (.error (.calledProcessError o), s') =>
    let s2 := push (push s' (Event.logWarn envFailWarn)) (Event.logDebug envFailDebug)
    (.error (.calledProcessError o), push s2 (Event.logError typicalSolutionMsg))
  | (.error e, s') => (.error e, s')

/-! ## The recovery cascade -/

def regenCmd (E : Ext) : CmdCall :=
  { cmd := "regenerate_certs", machine := some E.vmName,
    args := [], timeoutSec := some 120 }

def restartCmd (E : Ext) : CmdCall :=
  { cmd := "restart", machine := some E.vmName,
    args := [], timeoutSec := some 120 }

/-- Modelled from the spec: the base-class `remove` helper (not under src/).
Spec section 4.1.3 stage 3: removal of the VM reports a success flag and can
fail with a non-zero-exit error, which `_recover` catches.  Consumes one
remove-oracle index and records the call. -/
def remove (E : Ext) (name : String) (s : St) : Except PyErr Bool × St :=
  let s' := { s with kr := s.kr + 1, trace := s.trace ++ [Event.removeCall name] }
  match E.ro s.kr with
  | .ok b => (.ok b, s')
  | .cpe o => (.error (.calledProcessError o), s')

/-- The remove/recreate stage of `_recover`:
`try: if remove(name): create(name)` with a non-zero-exit failure caught and
logged rather than propagated. -/
def recreate_stage (E : Ext) (s : St) : Except PyErr Unit × St :=
  match remove E E.vmName s with
  | (.error (.calledProcessError _), s1) =>
    (.ok (), push s1 (Event.logWarn "DockerMachine: failed to re-create the VM"))
  | (.error e, s1) => (.error e, s1)
  | (.ok false, s1) => (.ok (), s1)
  | (.ok true, s1) =>
    match create E (some E.vmName) [] s1 with
    | (.ok _, s2) => (.ok (), s2)
    | (.error (.calledProcessError _), s2) =>
      (.ok (), push s2 (Event.logWarn "DockerMachine: failed to re-create the VM"))
    | (.error e, s2) => (.error e, s2)

/-- The final two statements of `_recover` after the restart stage is over:
the remove/recreate attempt followed by the terminal `_set_env(retried=True)`. -/
def recreate_then_set_env (E : Ext) (s : St) : Except PyErr Unit × St :=
  match recreate_stage E s with
  | (.ok _, s1) => set_env_retried E s1
  | (.error e, s1) => (.error e, s1)

/-- `_recover(restarted=True)`: the body of `_recover` with the restart
stage statically skipped. -/
def recover_restarted (E : Ext) (s : St) : Except PyErr Unit × St :=
  match command E (regenCmd E) s with
  | (.ok _, s1) => set_env_retried E s1
  | (.error (.calledProcessError _), s1) =>
    recreate_then_set_env E (push s1 (Event.logWarn "Failed to regenerate certificates"))
  | (.error .timeoutExpired, s1) =>
    recreate_then_set_env E (push s1 (Event.logWarn "Timeout in regenerate certificates"))
  | (.error e, s1) => (.error e, s1)

/-- The restart stage of `_recover(restarted=False)`: a successful restart
recurses into `_recover(restarted=True)`; a failed or timed-out restart is
logged and falls through to the remove/recreate stage. -/
def restart_stage (E : Ext) (s : St) : Except PyErr Unit × St :=
  match command E (restartCmd E) s with
  | (.ok _, s1) => recover_restarted E s1
  | (.error (.calledProcessError _), s1) =>
    recreate_then_set_env E (push s1 (Event.logWarn "Failed to restart the VM"))
  | (.error .timeoutExpired, s1) =>
    recreate_then_set_env E (push s1 (Event.logWarn "Timeout in restart the VM"))
  | (.error e, s1) => (.error e, s1)

/-- `_recover(restarted=False)`: regenerate certificates; on success go
straight to the terminal `_set_env(retried=True)`, otherwise log and enter
the restart stage. -/
def recover_first (E : Ext) (s : St) : Except PyErr Unit × St :=
  match command E (regenCmd E) s with
  | (.ok _, s1) => set_env_retried E s1
  | (.error (.calledProcessError _), s1) =>
    restart_stage E (push s1 (Event.logWarn "Failed to regenerate certificates"))
  | (.error .timeoutExpired, s1) =>
    restart_stage E (push s1 (Event.logWarn "Timeout in regenerate certificates"))
  | (.error e, s1) => (.error e, s1)

/-- `_recover` with its `restarted` flag. -/
def recover (E : Ext) (restarted : Bool) : St → Except PyErr Unit × St :=
  if restarted then recover_restarted E else recover_first E

/-- `_set_env(retried=False)`: on a non-zero-exit failure of the `env`
invocation, log and delegate to `_recover()`. -/
def set_env_first (E : Ext) (s : St) : Except PyErr Unit × St :=
  match command E (envCmd E) s with
  | (.ok output, s') => set_env_success output s'
  | (.error (.calledProcessError _), s') =>
    recover_first E
      (push (push s' (Event.logWarn envFailWarn)) (Event.logDebug envFailDebug))
  | (.error e, s') => (.error e, s')

/-- `_set_env` with its `retried` flag. -/
def set_env (E : Ext) (retried : Bool) : St → Except PyErr Unit × St :=
  if retried then set_env_retried E else set_env_first E

/-! ## setup -/

/-- Modelled from the spec: the base-class `vm_running` check (not under
src/) — reports whether the VM is in a running state; one boolean-oracle
index per call. -/
def vm_running (E : Ext) (s : St) : Bool × St :=
  (E.running s.kv,
   { s with kv := s.kv + 1, trace := s.trace ++ [Event.vmRunningCall] })

/-- Modelled from the spec: the base-class `restore_vm` (not under src/) —
"starts the VM"; recorded as an event. -/
def restore_vm (s : St) : St := push s Event.restoreVmCall

/-- The tail of `setup` once the VM exists: start it when it is not running,
then synchronize the environment. -/
def setup_rest (E : Ext) (s : St) : Except PyErr Unit × St :=
  let (r, s2) := vm_running E s
  set_env_first E (if r then s2 else restore_vm s2)

/-- `DockerMachineHypervisor.setup`: when the managed name is absent from
the VM list, attempt creation with the caller-supplied configuration and
raise when it fails; then ensure the VM runs and synchronize the
environment. -/
def setup (E : Ext) (s : St) : Except PyErr Unit × St :=
  match vms E s with
  | (.error e, s1) => (.error e, s1)
  | (.ok l, s1) =>
    if E.vmName ∈ l then setup_rest E s1
    else
      match create E (some E.vmName) E.getConfig s1 with
      | (.ok true, s2) => setup_rest E s2
      | (.ok false, s2) =>
        (.error (.exception "Docker: No vm available and failed to create"),
         push s2 (Event.logWarn
           (E.driverName ++ ": Vm (" ++ E.vmName ++ ") not found and create failed")))
      | (.error e, s2) => (.error e, s2)

/-- The `config_dir` property. -/
def config_dir (s : St) : Option String := s.configDir

/-! ## Trace observations -/

/-- Does the event invoke the driver subcommand `name`? -/
def isCmdNamed (name : String) (e : Event) : Bool :=
  match e with
  | .cmd c => c.cmd = name
  | _ => false

/-- How often the trace invokes the driver subcommand `name`. -/
def cmdCount (name : String) (t : List Event) : Nat :=
  t.countP (isCmdNamed name)

def isCreateEv (e : Event) : Bool :=
  match e with
  | .createCall _ _ => true
  | _ => false

def isRemoveEv (e : Event) : Bool :=
  match e with
  | .removeCall _ => true
  | _ => false

/-- How often the trace calls the `create` method. -/
def createCount (t : List Event) : Nat := t.countP isCreateEv

/-- How often the trace calls the base-class `remove` helper. -/
def removeCount (t : List Event) : Nat := t.countP isRemoveEv

/-- The `create` method calls in the trace, with their name and parameters,
in order. -/
def createEvents (t : List Event) : List (String × List (String × String)) :=
  t.filterMap (fun e =>
    match e with
    | .createCall n p => some (n, p)
    | _ => none)

/-- A trace predicate that ignores log events. -/
def LogBlind (p : Event → Bool) : Prop :=
  (∀ m, p (Event.logWarn m) = false) ∧ (∀ m, p (Event.logError m) = false) ∧
  (∀ m, p (Event.logInfo m) = false) ∧ (∀ m, p (Event.logDebug m) = false)

/-- Does the line reach the `os.environ[var] = val` assignment for variable
`v`?  (Blank lines, lines whose directive is not `set`, and malformed lines
that raise `ValueError` do not.) -/
def lineSetsVar (v : String) (line : String) : Bool :=
  if line = "" then false
  else
    match splitOnceCh ' ' line.toList with
    | (_, none) => false
    | (c, some ps) =>
      pyLower (String.mk c) = "set" &&
        (match splitOnceCh '=' ps with
         | (_, none) => false
         | (var, some _) => String.mk var = v)

/-! ## Concrete instances used by witnesses and counterexamples -/

def initSt : St :=
  { kc := 0, kr := 0, kv := 0, trace := [], env := [], configDir := none }

/-- The environment-export line from the spec scenario. -/
def certLine : String := "set DOCKER_CERT_PATH=\"/a/b/c\""

/-- A base external world; witnesses override the fields they exercise. -/
def baseExt (f : Nat → CmdCall → CmdOutcome) : Ext :=
  { co := f
    ro := fun _ => RemoveOutcome.ok false
    running := fun _ => true
    vmName := "golem"
    driverName := "virtualbox"
    getConfig := [("cpu_count", "2")]
    ipOk := fun _ => false
    inspect := fun _ => { ports := [] } }


/-- Reading `os.environ[key]` on the association-list model. -/
def envGet (env : List (String × String)) (key : String) : Option String :=
  match env with
  | [] => none
  | (k, v) :: rest => if k = key then some v else envGet rest key

/-- Does the output line contain a whitespace-delimited token, so that
`l.strip().split()[0]` does not raise? -/
def hasToken (l : String) : Bool :=
  !(pyWords (stripCh l.toList)).isEmpty

/-- The first whitespace-delimited token of a line (empty string when the
line has none). -/
def firstTokenD (l : String) : String :=
  String.mk ((pyWords (stripCh l.toList)).headD [])

/-- A world whose driver tool always fails with a non-zero exit. -/
def extCpe : Ext := baseExt (fun _ _ => CmdOutcome.cpe (some "boom"))

/-- A `list` output whose only data line is blank. -/
def extListBlank : Ext := baseExt (fun _ _ => CmdOutcome.ok "Header\n\nx")

/-- A `list` invocation succeeding with empty output. -/
def extListEmpty : Ext := baseExt (fun _ _ => CmdOutcome.ok "")

/-- A well-formed `list` output: header, two data lines, trailing blank. -/
def listOkOut : String := "NAME   ACTIVE\ngolem   *   virtualbox\nother   -   x\n"

def extListOk : Ext := baseExt (fun _ _ => CmdOutcome.ok listOkOut)

/-- The spec scenario for `setup`: the list holds only `other-vm`, and the
subsequent `create` invocation fails with a non-zero exit. -/
def extSetup : Ext := baseExt (fun n _ =>
  if n = 0 then CmdOutcome.ok "NAME\nother-vm x\n" else CmdOutcome.cpe (some "boom"))

/-- A world where `regenerate_certs` succeeds and everything else fails. -/
def extRegenOk : Ext := baseExt (fun _ c =>
  if c.cmd = "regenerate_certs" then CmdOutcome.ok "" else CmdOutcome.cpe none)

/-- The spec scenario for `get_port_mapping`: the container binds
`8080/tcp` to host port `32768` and the VM IP output contains a noise line
before `192.168.99.100`. -/
def extIp : Ext :=
  { baseExt (fun _ _ => CmdOutcome.ok "(unknown)\n192.168.99.100") with
    ipOk := fun l => l = "192.168.99.100"
    inspect := fun _ => { ports := [("8080/tcp", [32768])] } }

/-! ## Lemmas about the environment snapshot -/

theorem envGet_envSet_self (env : List (String × String)) (var val : String) :
    envGet (envSet env var val) var = some val := by
  induction env with
  | nil => simp [envSet, envGet]
  | cons kv rest ih =>
    obtain ⟨k, v⟩ := kv
    by_cases h : k = var
    · subst h
      simp [envSet, envGet]
    · simp [envSet, envGet, h, ih]

theorem envGet_envSet_ne (env : List (String × String)) (var val key : String)
    (h : var ≠ key) :
    envGet (envSet env var val) key = envGet env key := by
  induction env with
  | nil => simp [envSet, envGet, h]
  | cons kv rest ih =>
    obtain ⟨k, v⟩ := kv
    by_cases hk : k = var
    · subst hk
      simp [envSet, envGet, h]
    · simp [envSet, envGet, hk, ih]

theorem procEnvLines_cons (l : String) (ls : List String) (s : St) :
    procEnvLines (l :: ls) s =
      match procEnvLine l s with
      | (.ok _, s') => procEnvLines ls s'
      | (.error e, s') => (.error e, s') := rfl

theorem procEnvLine_trace (l : String) (s : St) :
    (procEnvLine l s).2.trace = s.trace := by
  by_cases hl : l = ""
  · simp [procEnvLine, hl]
  · rcases hsp : splitOnceCh ' ' l.toList with ⟨c, ps⟩
    simp only [String.toList] at hsp
    rcases ps with _ | ps
    · simp [procEnvLine, String.toList, hl, hsp]
    · by_cases hset : pyLower (String.mk c) = "set"
      · rcases heq : splitOnceCh '=' ps with ⟨var, val⟩
        rcases val with _ | val
        · simp [procEnvLine, String.toList, hl, hsp, hset, heq]
        · by_cases hvar : String.mk var = "DOCKER_CERT_PATH" <;>
            simp [procEnvLine, String.toList, hl, hsp, hset, heq, hvar]
      · simp [procEnvLine, String.toList, hl, hsp, hset]

theorem procEnvLines_trace (ls : List String) (s : St) :
    (procEnvLines ls s).2.trace = s.trace := by
  induction ls generalizing s with
  | nil => rfl
  | cons l rest ih =>
    rw [procEnvLines_cons]
    rcases h : procEnvLine l s with ⟨r, s'⟩
    have hs' : s'.trace = s.trace := by
      have := procEnvLine_trace l s
      rw [h] at this
      exact this
    rcases r with e | v
    · exact hs'
    · dsimp only
      rw [ih, hs']

theorem procEnvLines_append (a b : List String) (s : St) :
    procEnvLines (a ++ b) s =
      match procEnvLines a s with
      | (.ok _, s') => procEnvLines b s'
      | (.error e, s') => (.error e, s') := by
  induction a generalizing s with
  | nil => rfl
  | cons l rest ih =>
    rw [List.cons_append, procEnvLines_cons, procEnvLines_cons]
    rcases h : procEnvLine l s with ⟨r, s'⟩
    rcases r with e | v
    · rfl
    · dsimp only
      exact ih s'

theorem procEnvLine_preserve (l : String) (s : St)
    (h : lineSetsVar "DOCKER_CERT_PATH" l = false) :
    envGet (procEnvLine l s).2.env "DOCKER_CERT_PATH"
        = envGet s.env "DOCKER_CERT_PATH" ∧
    (procEnvLine l s).2.configDir = s.configDir := by
  by_cases hl : l = ""
  · simp [procEnvLine, hl]
  · rcases hsp : splitOnceCh ' ' l.toList with ⟨c, ps⟩
    simp only [String.toList] at hsp
    rcases ps with _ | ps
    · simp [procEnvLine, String.toList, hl, hsp]
    · by_cases hset : pyLower (String.mk c) = "set"
      · rcases heq : splitOnceCh '=' ps with ⟨var, val⟩
        rcases val with _ | val
        · simp [procEnvLine, String.toList, hl, hsp, hset, heq]
        · have hvar : String.mk var ≠ "DOCKER_CERT_PATH" := by
            unfold lineSetsVar at h
            rw [if_neg hl] at h
            simp only [String.toList, hsp, hset, heq] at h
            simpa using h
          simp [procEnvLine, String.toList, hl, hsp, hset, heq, hvar]
          exact envGet_envSet_ne s.env (String.mk var) (String.mk val) _ hvar
      · simp [procEnvLine, String.toList, hl, hsp, hset]

theorem procEnvLines_preserve (ls : List String) (s : St)
    (h : ∀ l ∈ ls, lineSetsVar "DOCKER_CERT_PATH" l = false) :
    envGet (procEnvLines ls s).2.env "DOCKER_CERT_PATH"
        = envGet s.env "DOCKER_CERT_PATH" ∧
    (procEnvLines ls s).2.configDir = s.configDir := by
  induction ls generalizing s with
  | nil => exact ⟨rfl, rfl⟩
  | cons l rest ih =>
    have hline := procEnvLine_preserve l s (h l (by simp))
    rw [procEnvLines_cons]
    rcases he : procEnvLine l s with ⟨r, s'⟩
    rw [he] at hline
    rcases r with e | v
    · exact hline
    · have hrest := ih s' (fun x hx => h x (by simp [hx]))
      exact ⟨hrest.1.trans hline.1, hrest.2.trans hline.2⟩

/-- The effect of the spec scenario line on any state: the value is stored
verbatim (quotes included) and the certificate directory is derived with the
quotes stripped. -/
theorem procEnvLine_cert (s : St) :
    procEnvLine certLine s =
      (.ok (), { s with env := envSet s.env "DOCKER_CERT_PATH" "\"/a/b/c\"",
                        configDir := some "/a/b" }) := rfl

/-! ## Claim C2 -/

/-- Claim C2 as stated is false at the single-line output
`set DOCKER_CERT_PATH="/a/b/c"`: the certificate directory is indeed
derived as `/a/b`, but the value stored in the process environment keeps
its surrounding quotes, so `DOCKER_CERT_PATH` is not `/a/b/c`. -/
theorem c2_quotes_not_stripped_counterexample :
    (set_env_from_output certLine initSt).2.configDir = some "/a/b" ∧
    envGet (set_env_from_output certLine initSt).2.env "DOCKER_CERT_PATH"
        ≠ some "/a/b/c" ∧
    envGet (set_env_from_output certLine initSt).2.env "DOCKER_CERT_PATH"
        = some "\"/a/b/c\"" := by
  refine ⟨rfl, ?_, rfl⟩
  intro h
  have : some ("\"/a/b/c\"" : String) = some ("/a/b/c" : String) := by
    rw [← h]
    rfl
  simp at this

/-- Claim C2, amended: for every environment-export output whose lines are
some prefix, then the line `set DOCKER_CERT_PATH="/a/b/c"`, then a suffix,
where the prefix processes without error and no suffix line reaches the
environment assignment for `DOCKER_CERT_PATH`, after `_set_env_from_output`
processes the output the certificate directory equals `/a/b` and the process
environment entry `DOCKER_CERT_PATH` equals `"/a/b/c"` with its surrounding
quotes kept: the quotes are stripped only for the certificate-directory
derivation, not before the value is stored. -/
theorem c2_cert_path_env_and_config_dir (s : St) (output : String)
    (pre post : List String)
    (hsplit : pySplitCh '\n' output = pre ++ [certLine] ++ post)
    (hpre : (procEnvLines pre s).1 = .ok ())
    (hpost : ∀ l ∈ post, lineSetsVar "DOCKER_CERT_PATH" l = false) :
    envGet (set_env_from_output output s).2.env "DOCKER_CERT_PATH"
        = some "\"/a/b/c\"" ∧
    (set_env_from_output output s).2.configDir = some "/a/b" := by
  unfold set_env_from_output
  rw [hsplit, List.append_assoc, procEnvLines_append]
  rcases hp : procEnvLines pre s with ⟨r, s1⟩
  rw [hp] at hpre
  rcases r with e | v
  · exact absurd hpre (by simp)
  · dsimp only
    rw [show ([certLine] ++ post : List String) = certLine :: post from rfl,
      procEnvLines_cons, procEnvLine_cert s1]
    dsimp only
    have hpres := procEnvLines_preserve post
      { s1 with env := envSet s1.env "DOCKER_CERT_PATH" "\"/a/b/c\"",
                configDir := some "/a/b" } hpost
    refine ⟨hpres.1.trans ?_, hpres.2⟩
    exact envGet_envSet_self s1.env "DOCKER_CERT_PATH" "\"/a/b/c\""

/-- Witness for the amended claim C2 at a concrete output containing a
preceding well-formed line and a following non-`set` line. -/
theorem c2_cert_path_env_and_config_dir_witness :
    envGet (set_env_from_output "set A=1\nset DOCKER_CERT_PATH=\"/a/b/c\"\nrem x"
        initSt).2.env "DOCKER_CERT_PATH" = some "\"/a/b/c\"" ∧
    (set_env_from_output "set A=1\nset DOCKER_CERT_PATH=\"/a/b/c\"\nrem x"
        initSt).2.configDir = some "/a/b" :=
  c2_cert_path_env_and_config_dir initSt
    "set A=1\nset DOCKER_CERT_PATH=\"/a/b/c\"\nrem x"
    ["set A=1"] ["rem x"] rfl rfl (by decide)

/-! ## Claims C8 and C9 -/

theorem firstTokens_map (ls : List String)
    (h : ∀ l ∈ ls, hasToken l = true) :
    firstTokens ls = .ok (ls.map firstTokenD) := by
  induction ls with
  | nil => rfl
  | cons l rest ih =>
    have hl := h l (by simp)
    rcases hw : pyWords (stripCh l.toList) with _ | ⟨t, ts⟩
    · rw [hasToken, hw] at hl
      simp at hl
    · have hft : firstToken l = .ok (String.mk t) := by
        rw [firstToken, hw]
      have hd : firstTokenD l = String.mk t := by
        rw [firstTokenD, hw]
        rfl
      rw [show (l :: rest).map firstTokenD = firstTokenD l :: rest.map firstTokenD
          from rfl, hd]
      show (match firstToken l with
        | Except.error e => (Except.error e : Except PyErr (List String))
        | Except.ok t => match firstTokens rest with
          | Except.error e => Except.error e
          | Except.ok ts => Except.ok (t :: ts)) = _
      rw [hft, ih (fun x hx => h x (by simp [hx]))]

/-- Claim C8 as stated is false: `vms` does not return a sequence for every
possible successful output.  On the output with a single blank data line,
parsing raises `IndexError` (the Python `l.strip().split()[0]` on a blank
line), so `vms` raises instead of returning a sequence. -/
theorem c8_vms_raises_counterexample :
    (vms extListBlank initSt).1 = Except.error PyErr.indexError ∧
    ¬ ∃ ns : List String, (vms extListBlank initSt).1 = Except.ok ns := by
  refine ⟨rfl, ?_⟩
  rintro ⟨ns, h⟩
  rw [show (vms extListBlank initSt).1 = Except.error PyErr.indexError from rfl] at h
  exact Except.noConfusion h

/-- Claim C8, amended: `vms` returns the empty sequence when the `list`
invocation fails with a non-zero exit, and when it succeeds with empty
output; when it succeeds and every data line contains a whitespace-delimited
token, `vms` returns the parsed name sequence without raising.  (A blank
data line makes `vms` raise `IndexError`, so the never-raises guarantee
needs the well-formedness proviso.) -/
theorem c8_vms_failure_gives_empty (E : Ext) (s : St) :
    (∀ o, E.co s.kc listCmd = .cpe o →
      vms E s = (.ok [], { s with kc := s.kc + 1, trace := s.trace ++ [Event.cmd listCmd, Event.logWarn "Failed to list VMs"] })) ∧
    (E.co s.kc listCmd = .ok "" →
      vms E s = (.ok [], { s with kc := s.kc + 1, trace := s.trace ++ [Event.cmd listCmd] })) ∧
    (∀ out, E.co s.kc listCmd = .ok out →
      (∀ l ∈ dataLines out, hasToken l = true) →
      vms E s = (.ok ((dataLines out).map firstTokenD),
        { s with kc := s.kc + 1, trace := s.trace ++ [Event.cmd listCmd] })) := by
  refine ⟨?_, ?_, ?_⟩
  · intro o h
    simp [vms, command, h, push]
  · intro h
    simp [vms, command, h]
  · intro out h hw
    by_cases hout : out = ""
    · subst hout
      simp [vms, command, h]
      rfl
    · simp [vms, command, h, hout, firstTokens_map _ hw]

/-- Witness for the amended claim C8, covering the non-zero-exit case, the
empty-output case and a well-formed two-line output. -/
theorem c8_vms_failure_gives_empty_witness :
    vms extCpe initSt = (.ok [], { initSt with kc := 1, trace := [Event.cmd listCmd, Event.logWarn "Failed to list VMs"] }) ∧
    vms extListEmpty initSt = (.ok [], { initSt with kc := 1, trace := [Event.cmd listCmd] }) ∧
    vms extListOk initSt = (.ok ["golem", "other"], { initSt with kc := 1, trace := [Event.cmd listCmd] }) :=
  ⟨(c8_vms_failure_gives_empty extCpe initSt).1 (some "boom") rfl,
   (c8_vms_failure_gives_empty extListEmpty initSt).2.1 rfl,
   (c8_vms_failure_gives_empty extListOk initSt).2.2 listOkOut rfl (by decide)⟩

/-- Claim C9: on a successful `list` output, `vms` returns exactly one name
per data line (the lines between the header first line and the trailing
last line), each the first whitespace-delimited token of its line, in
order.  The data lines are required to contain a token, which the claim
presupposes by speaking of their first token. -/
theorem c9_vms_first_tokens (E : Ext) (s : St) (out : String)
    (h1 : E.co s.kc listCmd = .ok out)
    (h2 : ∀ l ∈ dataLines out, hasToken l = true) :
    vms E s = (.ok ((dataLines out).map firstTokenD),
      { s with kc := s.kc + 1, trace := s.trace ++ [Event.cmd listCmd] }) ∧
    ((dataLines out).map firstTokenD).length = (dataLines out).length := by
  refine ⟨?_, by simp⟩
  by_cases hout : out = ""
  · subst hout
    simp [vms, command, h1]
    rfl
  · simp [vms, command, h1, hout, firstTokens_map _ h2]

/-- Witness for claim C9 on a two-data-line output. -/
theorem c9_vms_first_tokens_witness :
    vms extListOk initSt = (.ok ["golem", "other"], { initSt with kc := 1, trace := [Event.cmd listCmd] }) ∧
    ((dataLines listOkOut).map firstTokenD).length = (dataLines listOkOut).length :=
  c9_vms_first_tokens extListOk initSt listOkOut rfl (by decide)

/-! ## Claims C7 and C10 -/

/-- Claim C7: for every VM name and parameter set, `create` returns `True`
when the tool invocation succeeds; on a non-zero exit it logs the decoded
stdout (empty string when unavailable) together with the driver name and
returns `False`; and under any well-formed world it never raises — it
always returns a boolean. -/
theorem c7_create_never_raises (E : Ext) (name : Option String)
    (params : List (String × String)) (s : St) :
    (∀ out, E.co s.kc (createCmd E (resolveName E name)) = .ok out →
      create E name params s = (.ok true, { s with kc := s.kc + 1, trace := s.trace ++ [Event.createCall (resolveName E name) params, Event.logInfo (E.driverName ++ ": creating VM \"" ++ resolveName E name ++ "\""), Event.cmd (createCmd E (resolveName E name))] })) ∧
    (∀ o, E.co s.kc (createCmd E (resolveName E name)) = .cpe o →
      create E name params s = (.ok false, { s with kc := s.kc + 1, trace := s.trace ++ [Event.createCall (resolveName E name) params, Event.logInfo (E.driverName ++ ": creating VM \"" ++ resolveName E name ++ "\""), Event.cmd (createCmd E (resolveName E name)), Event.logError (createFailMsg E (resolveName E name) (o.getD ""))] })) ∧
    (NoSpuriousTimeout E → ∃ b, (create E name params s).1 = .ok b) := by
  refine ⟨?_, ?_, ?_⟩
  · intro out h
    simp [create, command, push, h, List.append_assoc]
  · intro o h
    simp [create, command, push, h, List.append_assoc]
  · intro hwf
    rcases h : E.co s.kc (createCmd E (resolveName E name)) with out | o | _
    · exact ⟨true, by simp [create, command, push, h]⟩
    · exact ⟨false, by simp [create, command, push, h]⟩
    · exact absurd h (hwf s.kc (createCmd E (resolveName E name)) rfl)

/-- Witness for claim C7 at a failing `create` invocation with captured
stdout `boom`. -/
theorem c7_create_never_raises_witness :
    create extCpe (some "golem") [("cpu_count", "2")] initSt =
      (.ok false, { initSt with kc := 1, trace := [Event.createCall "golem" [("cpu_count", "2")], Event.logInfo "virtualbox: creating VM \"golem\"", Event.cmd (createCmd extCpe "golem"), Event.logError (createFailMsg extCpe "golem" "boom")] }) :=
  (c7_create_never_raises extCpe (some "golem") [("cpu_count", "2")] initSt).2.1
    (some "boom") rfl

theorem findIP_eq_find (E : Ext) (ls : List String) :
    findIP E ls = ls.find? (ipLineOk E) := by
  induction ls with
  | nil => rfl
  | cons l rest ih =>
    by_cases h : ipLineOk E l
    · simp [findIP, h, List.find?_cons_of_pos]
    · simp [findIP, h, List.find?_cons_of_neg, ih]

/-- Claim C10: when the inspected container config binds `port/tcp` to a
host binding with host port `hp`, and the `ip` invocation succeeds,
`get_port_mapping` returns the pair of the first output line that starts
with a numeric character and passes IP parsing (skipping all others)
together with `hp`; when no output line qualifies, it fails with an
assertion violation. -/
theorem c10_get_port_mapping_first_ip (E : Ext) (cid : String) (port : Int)
    (s : St) (hp : Int) (rest : List Int) (raw : String)
    (h1 : (E.inspect cid).ports.lookup (toString port ++ "/tcp") = some (hp :: rest))
    (h2 : E.co s.kc (ipCmd E) = .ok raw) :
    (∀ L, (pySplitlines raw).find? (ipLineOk E) = some L →
      get_port_mapping E cid port s = (.ok (L, hp), { s with kc := s.kc + 1, trace := s.trace ++ [Event.cmd (ipCmd E)] })) ∧
    ((pySplitlines raw).find? (ipLineOk E) = none →
      get_port_mapping E cid port s = (.error .assertionError, { s with kc := s.kc + 1, trace := s.trace ++ [Event.cmd (ipCmd E)] })) := by
  constructor
  · intro L hL
    simp [get_port_mapping, command, h1, h2, findIP_eq_find, hL]
  · intro hL
    simp [get_port_mapping, command, h1, h2, findIP_eq_find, hL]

/-- Witness for claim C10 on the spec scenario: `8080/tcp` bound to host
port `32768`, IP output containing a noise line and then
`192.168.99.100`. -/
theorem c10_get_port_mapping_first_ip_witness :
    get_port_mapping extIp "container" 8080 initSt =
      (.ok ("192.168.99.100", 32768), { initSt with kc := 1, trace := [Event.cmd (ipCmd extIp)] }) :=
  (c10_get_port_mapping_first_ip extIp "container" 8080 initSt 32768 []
    "(unknown)\n192.168.99.100" rfl rfl).1 "192.168.99.100" rfl

/-! ## Claim C1 -/

theorem createEvents_append (t u : List Event) :
    createEvents (t ++ u) = createEvents t ++ createEvents u := by
  simp [createEvents]

theorem createEvents_vms (E : Ext) (s : St) :
    createEvents ((vms E s).2.trace) = createEvents s.trace := by
  rcases h : E.co s.kc listCmd with out | o | _
  · by_cases hout : out = ""
    · subst hout
      simp [vms, command, h, push, createEvents]
    · rcases hf : firstTokens (dataLines out) with e | ns <;>
        simp [vms, command, h, hout, hf, push, createEvents]
  · simp [vms, command, h, push, createEvents]
  · simp [vms, command, h, push, createEvents]

/-- Claim C1: when the managed name is absent from the VM list, `setup`
attempts `create` exactly once, with the managed name and the
caller-supplied configuration, and when that `create` reports failure
(non-zero exit of the tool, hence a `False` return), `setup` raises the
no-VM error without any further creation attempt. -/
theorem c1_setup_creates_once_and_raises (E : Ext) (s : St) (l : List String)
    (s1 : St) (o : Option String)
    (hv : vms E s = (.ok l, s1))
    (hmem : E.vmName ∉ l)
    (hc : E.co s1.kc (createCmd E E.vmName) = .cpe o) :
    (setup E s).1 = .error (.exception "Docker: No vm available and failed to create") ∧
    createEvents ((setup E s).2.trace) = createEvents s.trace ++ [(E.vmName, E.getConfig)] := by
  have hres : resolveName E (some E.vmName) = E.vmName := by
    simp [resolveName]
  have hce : createEvents s1.trace = createEvents s.trace := by
    have h1 : s1 = (vms E s).2 := by rw [hv]
    rw [h1, createEvents_vms]
  have hsetup : setup E s =
      (.error (.exception "Docker: No vm available and failed to create"),
       { s1 with kc := s1.kc + 1, trace := s1.trace ++ [Event.createCall E.vmName E.getConfig, Event.logInfo (E.driverName ++ ": creating VM \"" ++ E.vmName ++ "\""), Event.cmd (createCmd E E.vmName), Event.logError (createFailMsg E E.vmName (o.getD "")), Event.logWarn (E.driverName ++ ": Vm (" ++ E.vmName ++ ") not found and create failed")] }) := by
    simp [setup, hv, hmem, create, command, push, hres, hc, List.append_assoc]
  rw [hsetup]
  refine ⟨rfl, ?_⟩
  rw [createEvents_append, hce]
  rfl

/-- Witness for claim C1 on the spec scenario: the list holds only
`other-vm`, so `setup` calls `create` for `golem` with the configured
parameters, the tool fails, and `setup` raises. -/
theorem c1_setup_creates_once_and_raises_witness :
    (setup extSetup initSt).1 = .error (.exception "Docker: No vm available and failed to create") ∧
    createEvents ((setup extSetup initSt).2.trace) = [("golem", [("cpu_count", "2")])] :=
  c1_setup_creates_once_and_raises extSetup initSt ["other-vm"]
    { initSt with kc := 1, trace := [Event.cmd listCmd] } (some "boom") rfl
    (by decide) rfl

/-! ## Claim C3 -/

/-- Claim C3: when the `env` invocation fails with a non-zero exit,
`_set_env(retried=False)` logs and delegates to `_recover()` (its result is
exactly the recovery cascade run from the post-logging state — no raise at
that point), whereas `_set_env(retried=True)` logs the remediation guidance
and re-raises the original error, invoking nothing further — in particular
it never re-enters `_recover`. -/
theorem c3_set_env_first_recovers_retried_raises (E : Ext) (s : St)
    (o : Option String) (h : E.co s.kc (envCmd E) = .cpe o) :
    set_env E false s = recover E false { s with kc := s.kc + 1, trace := s.trace ++ [Event.cmd (envCmd E), Event.logWarn envFailWarn, Event.logDebug envFailDebug] } ∧
    set_env E true s = (.error (.calledProcessError o), { s with kc := s.kc + 1, trace := s.trace ++ [Event.cmd (envCmd E), Event.logWarn envFailWarn, Event.logDebug envFailDebug, Event.logError typicalSolutionMsg] }) := by
  constructor
  · simp [set_env, set_env_first, recover, command, push, h, List.append_assoc]
  · simp [set_env, set_env_retried, command, push, h, List.append_assoc]

/-- Witness for claim C3 with every invocation failing on a non-zero exit. -/
theorem c3_set_env_first_recovers_retried_raises_witness :
    set_env extCpe false initSt = recover extCpe false { initSt with kc := 1, trace := [Event.cmd (envCmd extCpe), Event.logWarn envFailWarn, Event.logDebug envFailDebug] } ∧
    set_env extCpe true initSt = (.error (.calledProcessError (some "boom")), { initSt with kc := 1, trace := [Event.cmd (envCmd extCpe), Event.logWarn envFailWarn, Event.logDebug envFailDebug, Event.logError typicalSolutionMsg] }) :=
  c3_set_env_first_recovers_retried_raises extCpe initSt (some "boom") rfl

/-! ## Counting lemmas for the recovery cascade -/

theorem set_env_from_output_trace (o : String) (s : St) :
    (set_env_from_output o s).2.trace = s.trace :=
  procEnvLines_trace (pySplitCh '\n' o) s

theorem countP_set_env_success (p : Event → Bool) (hp : LogBlind p) (o : String)
    (s : St) :
    List.countP p ((set_env_success o s).2.trace) = List.countP p s.trace := by
  by_cases ho : o = ""
  · simp [set_env_success, ho, push, List.countP_append, List.countP_cons, hp.1]
  · rcases hso : set_env_from_output o s with ⟨r, s'⟩
    have hs' : s'.trace = s.trace := by
      have := set_env_from_output_trace o s
      rw [hso] at this
      exact this
    rcases r with e | v
    · simp [set_env_success, ho, hso, hs']
    · simp [set_env_success, ho, hso, push, List.countP_append, List.countP_cons,
        hp.2.2.1, hs']

theorem countP_set_env_retried (p : Event → Bool) (hp : LogBlind p) (E : Ext)
    (henv : p (Event.cmd (envCmd E)) = false) (s : St) :
    List.countP p ((set_env_retried E s).2.trace) = List.countP p s.trace := by
  rcases h : E.co s.kc (envCmd E) with out | o | _ <;>
    simp [set_env_retried, command, push, h, countP_set_env_success p hp,
      List.countP_append, List.countP_cons, henv, hp.1, hp.2.1, hp.2.2.2]

theorem countP_create (p : Event → Bool) (hp : LogBlind p) (E : Ext)
    (hcr : ∀ n pr, p (Event.createCall n pr) = false)
    (hcc : ∀ n, p (Event.cmd (createCmd E n)) = false)
    (name : Option String) (params : List (String × String)) (s : St) :
    List.countP p ((create E name params s).2.trace) = List.countP p s.trace := by
  rcases h : E.co s.kc (createCmd E (resolveName E name)) with out | o | _ <;>
    simp [create, command, push, h, List.countP_append, List.countP_cons,
      hp.1, hp.2.1, hp.2.2.1, hcr, hcc]

theorem countP_remove (p : Event → Bool) (E : Ext)
    (hrm : ∀ n, p (Event.removeCall n) = false) (name : String) (s : St) :
    List.countP p ((remove E name s).2.trace) = List.countP p s.trace := by
  rcases h : E.ro s.kr with b | o <;>
    simp [remove, h, List.countP_append, List.countP_cons, hrm]

theorem countP_recreate_stage (p : Event → Bool) (hp : LogBlind p) (E : Ext)
    (hcr : ∀ n pr, p (Event.createCall n pr) = false)
    (hcc : ∀ n, p (Event.cmd (createCmd E n)) = false)
    (hrm : ∀ n, p (Event.removeCall n) = false) (s : St) :
    List.countP p ((recreate_stage E s).2.trace) = List.countP p s.trace := by
  rcases hro : E.ro s.kr with b | o
  · cases b
    · simp [recreate_stage, remove, hro, List.countP_append, List.countP_cons, hrm]
    · rcases hc : E.co s.kc (createCmd E (resolveName E (some E.vmName)))
        with out | o2 | _ <;>
        simp [recreate_stage, remove, hro, create, command, push, hc,
          List.countP_append, List.countP_cons, hp.1, hp.2.1, hp.2.2.1,
          hcr, hcc, hrm]
  · simp [recreate_stage, remove, hro, push, List.countP_append,
      List.countP_cons, hrm, hp.1]

theorem countP_recreate_then_set_env (p : Event → Bool) (hp : LogBlind p)
    (E : Ext) (henv : p (Event.cmd (envCmd E)) = false)
    (hcr : ∀ n pr, p (Event.createCall n pr) = false)
    (hcc : ∀ n, p (Event.cmd (createCmd E n)) = false)
    (hrm : ∀ n, p (Event.removeCall n) = false) (s : St) :
    List.countP p ((recreate_then_set_env E s).2.trace) = List.countP p s.trace := by
  rcases hr : recreate_stage E s with ⟨r, s1⟩
  have h1 : List.countP p s1.trace = List.countP p s.trace := by
    have := countP_recreate_stage p hp E hcr hcc hrm s
    rw [hr] at this
    exact this
  rcases r with e | v
  · simp [recreate_then_set_env, hr, h1]
  · simp [recreate_then_set_env, hr, countP_set_env_retried p hp E henv, h1]

theorem countP_recover_restarted (p : Event → Bool) (hp : LogBlind p) (E : Ext)
    (henv : p (Event.cmd (envCmd E)) = false)
    (hreg : p (Event.cmd (regenCmd E)) = false)
    (hcr : ∀ n pr, p (Event.createCall n pr) = false)
    (hcc : ∀ n, p (Event.cmd (createCmd E n)) = false)
    (hrm : ∀ n, p (Event.removeCall n) = false) (s : St) :
    List.countP p ((recover_restarted E s).2.trace) = List.countP p s.trace := by
  rcases h : E.co s.kc (regenCmd E) with out | o | _ <;>
    simp [recover_restarted, command, push, h,
      countP_set_env_retried p hp E henv,
      countP_recreate_then_set_env p hp E henv hcr hcc hrm,
      List.countP_append, List.countP_cons, hreg, hp.1]

/-! ## Claim C5 -/

/-- Claim C5: when the regenerate-certificates invocation succeeds,
`_recover(restarted=False)` immediately calls `_set_env(retried=True)` on
the post-regeneration state and returns its result, and neither the restart
subcommand nor the remove/recreate stage is attempted: the restart-command,
remove-call and create-call counts of the trace are unchanged. -/
theorem c5_regen_success_short_circuits (E : Ext) (s : St) (out : String)
    (h : E.co s.kc (regenCmd E) = .ok out) :
    recover E false s = set_env E true { s with kc := s.kc + 1, trace := s.trace ++ [Event.cmd (regenCmd E)] } ∧
    cmdCount "restart" ((recover E false s).2.trace) = cmdCount "restart" s.trace ∧
    removeCount ((recover E false s).2.trace) = removeCount s.trace ∧
    createCount ((recover E false s).2.trace) = createCount s.trace := by
  have heq : recover E false s = set_env_retried E { s with kc := s.kc + 1, trace := s.trace ++ [Event.cmd (regenCmd E)] } := by
    show recover_first E s = _
    simp [recover_first, command, h]
  refine ⟨heq, ?_, ?_, ?_⟩
  · rw [show (recover E false s).2 = (set_env_retried E { s with kc := s.kc + 1, trace := s.trace ++ [Event.cmd (regenCmd E)] }).2 from congrArg Prod.snd heq]
    show List.countP _ _ = List.countP _ _
    rw [countP_set_env_retried (isCmdNamed "restart")
      ⟨fun _ => rfl, fun _ => rfl, fun _ => rfl, fun _ => rfl⟩ E rfl]
    simp [List.countP_append, List.countP_cons, isCmdNamed, regenCmd]
  · rw [show (recover E false s).2 = (set_env_retried E { s with kc := s.kc + 1, trace := s.trace ++ [Event.cmd (regenCmd E)] }).2 from congrArg Prod.snd heq]
    show List.countP _ _ = List.countP _ _
    rw [countP_set_env_retried isRemoveEv
      ⟨fun _ => rfl, fun _ => rfl, fun _ => rfl, fun _ => rfl⟩ E rfl]
    simp [List.countP_append, List.countP_cons, isRemoveEv]
  · rw [show (recover E false s).2 = (set_env_retried E { s with kc := s.kc + 1, trace := s.trace ++ [Event.cmd (regenCmd E)] }).2 from congrArg Prod.snd heq]
    show List.countP _ _ = List.countP _ _
    rw [countP_set_env_retried isCreateEv
      ⟨fun _ => rfl, fun _ => rfl, fun _ => rfl, fun _ => rfl⟩ E rfl]
    simp [List.countP_append, List.countP_cons, isCreateEv]

/-- Witness for claim C5: regeneration succeeds, every other invocation
fails. -/
theorem c5_regen_success_short_circuits_witness :
    recover extRegenOk false initSt = set_env extRegenOk true { initSt with kc := 1, trace := [Event.cmd (regenCmd extRegenOk)] } ∧
    cmdCount "restart" ((recover extRegenOk false initSt).2.trace) = cmdCount "restart" initSt.trace ∧
    removeCount ((recover extRegenOk false initSt).2.trace) = removeCount initSt.trace ∧
    createCount ((recover extRegenOk false initSt).2.trace) = createCount initSt.trace :=
  c5_regen_success_short_circuits extRegenOk initSt "" rfl

/-! ## Claim C4 -/

/-- Claim C4: within one recovery episode started by
`_recover(restarted=False)`, the restart subcommand is invoked at most once,
whatever the outcomes of every other invocation: the recursion passes
`restarted=True`, under which the restart stage is skipped (the cascade is
structurally bounded, which is what lets it be defined without recursion
here). -/
theorem c4_restart_invoked_at_most_once (E : Ext) (s : St) :
    cmdCount "restart" ((recover E false s).2.trace) ≤ cmdCount "restart" s.trace + 1 := by
  have hp : LogBlind (isCmdNamed "restart") :=
    ⟨fun _ => rfl, fun _ => rfl, fun _ => rfl, fun _ => rfl⟩
  have hse := countP_set_env_retried (isCmdNamed "restart") hp E rfl
  have hrts := countP_recreate_then_set_env (isCmdNamed "restart") hp E rfl
    (fun _ _ => rfl) (fun _ => rfl) (fun _ => rfl)
  have hrr := countP_recover_restarted (isCmdNamed "restart") hp E rfl rfl
    (fun _ _ => rfl) (fun _ => rfl) (fun _ => rfl)
  have e1 : isCmdNamed "restart" (Event.cmd (regenCmd E)) = false := rfl
  have e2 : isCmdNamed "restart" (Event.cmd (restartCmd E)) = true := rfl
  show cmdCount "restart" ((recover_first E s).2.trace) ≤ cmdCount "restart" s.trace + 1
  simp only [cmdCount]
  rcases h : E.co s.kc (regenCmd E) with out | o | _
  · simp only [recover_first, command, h]
    rw [hse]
    simp [List.countP_append, List.countP_cons, e1]
  · rcases h2 : E.co (s.kc + 1) (restartCmd E) with out2 | o2 | _ <;>
      simp [recover_first, restart_stage, command, push, h, h2, hse, hrts, hrr,
        List.countP_append, List.countP_cons, e1, e2, hp.1]
  · rcases h2 : E.co (s.kc + 1) (restartCmd E) with out2 | o2 | _ <;>
      simp [recover_first, restart_stage, command, push, h, h2, hse, hrts, hrr,
        List.countP_append, List.countP_cons, e1, e2, hp.1]

/-! ## Claim C6 -/

theorem recreate_stage_ok (E : Ext) (hwf : NoSpuriousTimeout E) (s : St) :
    (recreate_stage E s).1 = .ok () := by
  rcases hro : E.ro s.kr with b | o
  · cases b
    · simp [recreate_stage, remove, hro]
    · rcases hc : E.co s.kc (createCmd E (resolveName E (some E.vmName)))
        with out | o2 | _
      · simp [recreate_stage, remove, hro, create, command, push, hc]
      · simp [recreate_stage, remove, hro, create, command, push, hc]
      · exact absurd hc (hwf s.kc _ rfl)
  · simp [recreate_stage, remove, hro]

theorem rts_eq (E : Ext) (s : St) (h : (recreate_stage E s).1 = Except.ok ()) :
    recreate_then_set_env E s = set_env_retried E (recreate_stage E s).2 := by
  rcases hr : recreate_stage E s with ⟨r, s1⟩
  rw [hr] at h
  rcases r with e | v
  · exact absurd h (by simp)
  · simp [recreate_then_set_env, hr]

theorem rts_decomp (E : Ext) (hwf : NoSpuriousTimeout E) (s : St) :
    ∃ s', recreate_then_set_env E s = set_env_retried E s' ∧
      cmdCount "env" s'.trace = cmdCount "env" s.trace := by
  refine ⟨(recreate_stage E s).2, rts_eq E s (recreate_stage_ok E hwf s), ?_⟩
  exact countP_recreate_stage (isCmdNamed "env")
    ⟨fun _ => rfl, fun _ => rfl, fun _ => rfl, fun _ => rfl⟩ E
    (fun _ _ => rfl) (fun _ => rfl) (fun _ => rfl) s

theorem rr_decomp (E : Ext) (hwf : NoSpuriousTimeout E) (s : St) :
    ∃ s', recover_restarted E s = set_env_retried E s' ∧
      cmdCount "env" s'.trace = cmdCount "env" s.trace := by
  rcases h : E.co s.kc (regenCmd E) with out | o | _
  · refine ⟨{ s with kc := s.kc + 1, trace := s.trace ++ [Event.cmd (regenCmd E)] }, ?_, ?_⟩
    · simp [recover_restarted, command, h]
    · simp [cmdCount, List.countP_append, List.countP_cons, isCmdNamed, regenCmd]
  · have hstep : recover_restarted E s = recreate_then_set_env E { s with kc := s.kc + 1, trace := s.trace ++ [Event.cmd (regenCmd E), Event.logWarn "Failed to regenerate certificates"] } := by
      simp [recover_restarted, command, push, h, List.append_assoc]
    obtain ⟨s', h1, h2⟩ := rts_decomp E hwf { s with kc := s.kc + 1, trace := s.trace ++ [Event.cmd (regenCmd E), Event.logWarn "Failed to regenerate certificates"] }
    refine ⟨s', hstep.trans h1, ?_⟩
    rw [h2]
    simp [cmdCount, List.countP_append, List.countP_cons, isCmdNamed, regenCmd]
  · have hstep : recover_restarted E s = recreate_then_set_env E { s with kc := s.kc + 1, trace := s.trace ++ [Event.cmd (regenCmd E), Event.logWarn "Timeout in regenerate certificates"] } := by
      simp [recover_restarted, command, push, h, List.append_assoc]
    obtain ⟨s', h1, h2⟩ := rts_decomp E hwf { s with kc := s.kc + 1, trace := s.trace ++ [Event.cmd (regenCmd E), Event.logWarn "Timeout in regenerate certificates"] }
    refine ⟨s', hstep.trans h1, ?_⟩
    rw [h2]
    simp [cmdCount, List.countP_append, List.countP_cons, isCmdNamed, regenCmd]

theorem restart_decomp (E : Ext) (hwf : NoSpuriousTimeout E) (s : St) :
    ∃ s', restart_stage E s = set_env_retried E s' ∧
      cmdCount "env" s'.trace = cmdCount "env" s.trace := by
  rcases h : E.co s.kc (restartCmd E) with out | o | _
  · have hstep : restart_stage E s = recover_restarted E { s with kc := s.kc + 1, trace := s.trace ++ [Event.cmd (restartCmd E)] } := by
      simp [restart_stage, command, h]
    obtain ⟨s', h1, h2⟩ := rr_decomp E hwf { s with kc := s.kc + 1, trace := s.trace ++ [Event.cmd (restartCmd E)] }
    refine ⟨s', hstep.trans h1, ?_⟩
    rw [h2]
    simp [cmdCount, List.countP_append, List.countP_cons, isCmdNamed, restartCmd]
  · have hstep : restart_stage E s = recreate_then_set_env E { s with kc := s.kc + 1, trace := s.trace ++ [Event.cmd (restartCmd E), Event.logWarn "Failed to restart the VM"] } := by
      simp [restart_stage, command, push, h, List.append_assoc]
    obtain ⟨s', h1, h2⟩ := rts_decomp E hwf { s with kc := s.kc + 1, trace := s.trace ++ [Event.cmd (restartCmd E), Event.logWarn "Failed to restart the VM"] }
    refine ⟨s', hstep.trans h1, ?_⟩
    rw [h2]
    simp [cmdCount, List.countP_append, List.countP_cons, isCmdNamed, restartCmd]
  · have hstep : restart_stage E s = recreate_then_set_env E { s with kc := s.kc + 1, trace := s.trace ++ [Event.cmd (restartCmd E), Event.logWarn "Timeout in restart the VM"] } := by
      simp [restart_stage, command, push, h, List.append_assoc]
    obtain ⟨s', h1, h2⟩ := rts_decomp E hwf { s with kc := s.kc + 1, trace := s.trace ++ [Event.cmd (restartCmd E), Event.logWarn "Timeout in restart the VM"] }
    refine ⟨s', hstep.trans h1, ?_⟩
    rw [h2]
    simp [cmdCount, List.countP_append, List.countP_cons, isCmdNamed, restartCmd]

theorem set_env_retried_env_count (E : Ext) (s : St) :
    cmdCount "env" ((set_env_retried E s).2.trace) = cmdCount "env" s.trace + 1 := by
  have hp : LogBlind (isCmdNamed "env") :=
    ⟨fun _ => rfl, fun _ => rfl, fun _ => rfl, fun _ => rfl⟩
  have eenv : isCmdNamed "env" (Event.cmd (envCmd E)) = true := rfl
  rcases h : E.co s.kc (envCmd E) with out | o | _ <;>
    simp [set_env_retried, command, push, h, cmdCount,
      countP_set_env_success (isCmdNamed "env") hp,
      List.countP_append, List.countP_cons, eenv, hp.1, hp.2.1, hp.2.2.2]

/-- Claim C6: under a well-formed world, every run of
`_recover(restarted=False)` decomposes as a prefix that issues no `env`
invocation followed by one terminal `_set_env(retried=True)` call whose
result the cascade returns — in particular the remove/recreate stage never
propagates a non-zero-exit failure, so the terminal call is reached
regardless of its outcome, and the whole run issues the `env` invocation
exactly once. -/
theorem c6_recover_ends_with_one_retried_set_env (E : Ext) (s : St)
    (hwf : NoSpuriousTimeout E) :
    ∃ s', recover E false s = set_env E true s' ∧
      cmdCount "env" s'.trace = cmdCount "env" s.trace ∧
      cmdCount "env" ((recover E false s).2.trace) = cmdCount "env" s.trace + 1 := by
  have hrec : recover E false s = recover_first E s := rfl
  have main : ∃ s', recover_first E s = set_env_retried E s' ∧
      cmdCount "env" s'.trace = cmdCount "env" s.trace := by
    rcases h : E.co s.kc (regenCmd E) with out | o | _
    · refine ⟨{ s with kc := s.kc + 1, trace := s.trace ++ [Event.cmd (regenCmd E)] }, ?_, ?_⟩
      · simp [recover_first, command, h]
      · simp [cmdCount, List.countP_append, List.countP_cons, isCmdNamed, regenCmd]
    · have hstep : recover_first E s = restart_stage E { s with kc := s.kc + 1, trace := s.trace ++ [Event.cmd (regenCmd E), Event.logWarn "Failed to regenerate certificates"] } := by
        simp [recover_first, command, push, h, List.append_assoc]
      obtain ⟨s', h1, h2⟩ := restart_decomp E hwf { s with kc := s.kc + 1, trace := s.trace ++ [Event.cmd (regenCmd E), Event.logWarn "Failed to regenerate certificates"] }
      refine ⟨s', hstep.trans h1, ?_⟩
      rw [h2]
      simp [cmdCount, List.countP_append, List.countP_cons, isCmdNamed, regenCmd]
    · have hstep : recover_first E s = restart_stage E { s with kc := s.kc + 1, trace := s.trace ++ [Event.cmd (regenCmd E), Event.logWarn "Timeout in regenerate certificates"] } := by
        simp [recover_first, command, push, h, List.append_assoc]
      obtain ⟨s', h1, h2⟩ := restart_decomp E hwf { s with kc := s.kc + 1, trace := s.trace ++ [Event.cmd (regenCmd E), Event.logWarn "Timeout in regenerate certificates"] }
      refine ⟨s', hstep.trans h1, ?_⟩
      rw [h2]
      simp [cmdCount, List.countP_append, List.countP_cons, isCmdNamed, regenCmd]
  obtain ⟨s', h1, h2⟩ := main
  refine ⟨s', hrec.trans h1, h2, ?_⟩
  rw [hrec, h1, set_env_retried_env_count, h2]

/-- Witness for claim C6 with every invocation failing on a non-zero exit:
the cascade still terminates in the single retried `_set_env`. -/
theorem c6_recover_ends_with_one_retried_set_env_witness :
    ∃ s', recover extCpe false initSt = set_env extCpe true s' ∧
      cmdCount "env" s'.trace = cmdCount "env" initSt.trace ∧
      cmdCount "env" ((recover extCpe false initSt).2.trace) = cmdCount "env" initSt.trace + 1 :=
  c6_recover_ends_with_one_retried_set_env extCpe initSt
    (fun _ _ _ => fun hcon => CmdOutcome.noConfusion hcon)

end DockerMachine
